import Mathlib

/-!
Verification of the store schedule and slot engine of the perdiem app.

The definitions below are a shallow embedding of the TypeScript source:
`DateTimeService` (weekly hours, date overrides, open/closed resolution,
15-minute slot generation, store status, greeting banding),
`APIService` (conversion of raw API records and the fetched-config shape),
and `NotificationService` (next-opening scan and reminder-time arithmetic).

A JavaScript `Date` is embedded by the observations the source makes of it:
`getDay()` (0-6, Sunday = 0), the `YYYY-MM-DD` string produced by
`toLocaleDateString('en-CA', {timeZone})`, and wall-clock hour/minute
fields.  Where the source does real calendar arithmetic
(`setHours`/`setDate` normalization in `calculateNotificationTime`), the
embedding uses an explicit civil-calendar model (epoch days plus the
standard civil-from-days/days-from-civil conversions).
-/

/-- Internal weekly-hours entry (`DateTimeService.StoreHours`):
`dayOfWeek` 0-6 (Sunday-Saturday), `openTime`/`closeTime` as "HH:MM". -/
structure StoreHours where
  dayOfWeek : Nat
  openTime : String
  closeTime : String
  deriving DecidableEq

/-- Internal override entry (`DateTimeService.StoreOverride`): a specific
date string "YYYY-MM-DD" with an open flag and optional window. -/
structure StoreOverride where
  date : String
  isOpen : Bool
  openTime : Option String
  closeTime : Option String
  reason : Option String
  deriving DecidableEq

/-- `DateTimeService.StoreConfig`: timezone, weekly hours, overrides. -/
structure StoreConfig where
  timezone : String
  hours : List StoreHours
  overrides : List StoreOverride
  deriving DecidableEq

/-- A JavaScript `Date` as observed by `DateTimeService`: `getDay()`,
the `formatDateForAPI` string for the active timezone, and the wall-clock
hour/minute in that timezone (`getHours()`/`getMinutes()`). -/
structure JSDate where
  dayOfWeek : Nat
  dateString : String
  hours : Nat
  minutes : Nat
  deriving DecidableEq

/-- `DateTimeService.TimeSlot`. -/
structure TimeSlot where
  id : String
  time : String
  displayTime : String
  isAvailable : Bool
  isSelected : Bool
  deriving DecidableEq

/-- Result shape of `DateTimeService.getStoreStatus`:
`{ isOpen: boolean; nextOpen?: string }`. -/
structure StoreStatus where
  isOpen : Bool
  nextOpen : Option String
  deriving DecidableEq

/-- JavaScript `String.prototype.split(sep)` on a character list. -/
def splitOnChar (sep : Char) : List Char → List (List Char)
  | [] => [[]]
  | c :: cs =>
    match splitOnChar sep cs with
    | [] => [[]]
    | r :: rs => if c == sep then [] :: r :: rs else (c :: r) :: rs

/-- Decimal digit accumulation for `Number(...)` on an all-digit
numeral. -/
def charsToNatAux : List Char → Nat → Option Nat
  | [], acc => some acc
  | c :: cs, acc =>
    if c.isDigit then charsToNatAux cs (acc * 10 + (c.toNat - 48))
    else none

/-- `Number(str)` restricted to nonempty all-digit numerals, the only
shape the schedule data contains; anything else is mapped to the default
0 by `parseHM` below. -/
def charsToNat : List Char → Option Nat
  | [] => none
  | c :: cs => charsToNatAux (c :: cs) 0

/-- `"HH:MM".split(':').map(Number)` destructured into hour and minute.
All schedule times in the data model are well-formed "HH:MM" strings, for
which this agrees with the JavaScript original. -/
def parseHM (s : String) : Nat × Nat :=
  match (splitOnChar ':' s.data).map (fun cs => (charsToNat cs).getD 0) with
  | h :: m :: _ => (h, m)
  | h :: [] => (h, 0)
  | [] => (0, 0)

/-- Two-digit zero padding, as in `toTimeString()` fields. -/
def pad2 (n : Nat) : String :=
  if n < 10 then "0" ++ toString n else toString n

/-- `toTimeString().slice(0, 5)` of a time `t` minutes after the base
date's midnight (values past 1440 roll into the next day, as JavaScript
`Date` normalization does). -/
def minutesToHHMM (t : Nat) : String :=
  pad2 ((t / 60) % 24) ++ ":" ++ pad2 (t % 60)

/-- `toLocaleTimeString('en-US', {hour: 'numeric', minute: '2-digit',
hour12: true})` of a time `t` minutes after midnight. -/
def displayTime12 (t : Nat) : String :=
  let h24 := (t / 60) % 24
  let m := t % 60
  let h12 := if h24 % 12 == 0 then 12 else h24 % 12
  let marker := if h24 < 12 then "AM" else "PM"
  toString h12 ++ ":" ++ pad2 m ++ " " ++ marker

/-- `DateTimeService.isStoreOpen(date, timezone)`: overrides are consulted
first by date string; otherwise the weekly table is consulted by weekday,
presence meaning open (`return !!storeHours`). -/
def isStoreOpen (config : StoreConfig) (date : JSDate) : Bool :=
  match config.overrides.find? (fun o => o.date == date.dateString) with
  | some override => override.isOpen
  | none => (config.hours.find? (fun h => h.dayOfWeek == date.dayOfWeek)).isSome

/-- The `while (currentTime < closeTime)` loop of `generateTimeSlots`,
with an explicit fuel argument so that it is structural: each iteration
advances `current` by 15 minutes, so `close - current` iterations always
suffice. -/
def slotTimesAux : Nat → Nat → Nat → List Nat
  | 0, _, _ => []
  | fuel + 1, current, close =>
    if current < close then current :: slotTimesAux fuel (current + 15) close
    else []

/-- Slot start times in minutes: every 15 minutes from `current` while
strictly below `close`. -/
def slotTimes (current close : Nat) : List Nat :=
  slotTimesAux (close - current) current close

/-- `DateTimeService.generateTimeSlots(date, timezone)`: empty if the date
does not resolve open; otherwise the window is taken from the weekly table
entry for the date's weekday (the source never reads an override's
`openTime`/`closeTime` here), and 15-minute slots are emitted. -/
def generateTimeSlots (config : StoreConfig) (date : JSDate) : List TimeSlot :=
  if isStoreOpen config date then
    match config.hours.find? (fun h => h.dayOfWeek == date.dayOfWeek) with
    | none => []
    | some storeHours =>
      let op := parseHM storeHours.openTime
      let cl := parseHM storeHours.closeTime
      (slotTimes (op.1 * 60 + op.2) (cl.1 * 60 + cl.2)).map (fun t =>
        { id := date.dateString ++ "-" ++ minutesToHHMM t
        , time := minutesToHHMM t
        , displayTime := displayTime12 t
        , isAvailable := true
        , isSelected := false })
  else []

/-- `DateTimeService.getStoreStatus(timezone)`: applies `isStoreOpen` to
the current time (passed here as `now`) and returns only the flag; the
optional `nextOpen` field is never populated. -/
def getStoreStatus (config : StoreConfig) (now : JSDate) : StoreStatus :=
  { isOpen := isStoreOpen config now, nextOpen := none }

/-- The pure core of `DateTimeService.getGreetingMessage`: banding by the
current hour in the active timezone, then
`` `${greeting} ${cityName}!` ``. -/
def getGreetingMessage (hour : Nat) (cityName : String) : String :=
  let greeting :=
    if 5 ≤ hour ∧ hour < 10 then "Good Morning"
    else if 10 ≤ hour ∧ hour < 12 then "Late Morning Vibes!"
    else if 12 ≤ hour ∧ hour < 17 then "Good Afternoon"
    else if 17 ≤ hour ∧ hour < 21 then "Good Evening"
    else "Night Owl in"
  greeting ++ " " ++ cityName ++ "!"

/-- Raw API weekly-hours record (`APIService.StoreTime`). -/
structure APIStoreTime where
  id : String
  day_of_week : Nat
  is_open : Bool
  start_time : String
  end_time : String
  deriving DecidableEq

/-- Raw API override record (`APIService.StoreOverride`): day of month,
month, open flag, optional window. -/
structure APIStoreOverride where
  id : String
  day : Nat
  month : Nat
  is_open : Bool
  start_time : Option String
  end_time : Option String
  deriving DecidableEq

/-- `toString().padStart(2, '0')` on a day/month numeral string. -/
def padStart2 (s : String) : String :=
  if s.length = 0 then "00" ++ s
  else if s.length = 1 then "0" ++ s
  else s

/-- `APIService.convertStoreTime`: renames the fields into the internal
shape.  The source also copies `is_open` onto the returned object, but the
internal `StoreHours` interface declares only these three fields and no
consumer ever reads the extra property. -/
def convertStoreTime (t : APIStoreTime) : StoreHours :=
  { dayOfWeek := t.day_of_week
  , openTime := t.start_time
  , closeTime := t.end_time }

/-- `APIService.convertStoreOverride`: builds the "2025-MM-DD" date string
(2025 is hardcoded as base year) and passes the optional window through
unchanged; there is no validation of any kind. -/
def convertStoreOverride (o : APIStoreOverride) : StoreOverride :=
  let month := padStart2 (toString o.month)
  let day := padStart2 (toString o.day)
  { date := "2025-" ++ month ++ "-" ++ day
  , isOpen := o.is_open
  , openTime := o.start_time
  , closeTime := o.end_time
  , reason := some ("Override for " ++ month ++ "/" ++ day) }

/-- The outcome of `APIService.getStoreConfig()` as consumed by
`DateTimeService.initializeStoreConfig`: the two fetched record lists and
the combined error field. -/
structure FetchOutcome where
  storeTimes : List APIStoreTime
  storeOverrides : List APIStoreOverride
  error : Option String
  deriving DecidableEq

/-- The hardcoded fallback weekly table of
`DateTimeService.initializeStoreConfig` (identical in the API-error branch
and the exception branch). -/
def fallbackHours : List StoreHours :=
  [ { dayOfWeek := 0, openTime := "10:00", closeTime := "18:00" }
  , { dayOfWeek := 1, openTime := "09:00", closeTime := "17:00" }
  , { dayOfWeek := 2, openTime := "09:00", closeTime := "17:00" }
  , { dayOfWeek := 3, openTime := "09:00", closeTime := "17:00" }
  , { dayOfWeek := 4, openTime := "09:00", closeTime := "17:00" }
  , { dayOfWeek := 5, openTime := "09:00", closeTime := "17:00" }
  , { dayOfWeek := 6, openTime := "10:00", closeTime := "16:00" } ]

/-- The fallback configuration substituted when the fetch reports an
error (or throws). -/
def fallbackConfig : StoreConfig :=
  { timezone := "America/New_York", hours := fallbackHours, overrides := [] }

/-- `DateTimeService.initializeStoreConfig` as a pure function of the
fetch outcome: an error substitutes the fallback constant; otherwise the
open weekly records are converted and all overrides are converted.  The
function is total — no failure is ever surfaced to the caller. -/
def initializeStoreConfig (f : FetchOutcome) : StoreConfig :=
  match f.error with
  | some _ => fallbackConfig
  | none =>
    { timezone := "America/New_York"
    , hours := (f.storeTimes.filter (fun t => t.is_open)).map convertStoreTime
    , overrides := f.storeOverrides.map convertStoreOverride }

/-- `NotificationService.StoreOpeningTime`. -/
structure StoreOpeningTime where
  dayOfWeek : Nat
  openTime : String
  closeTime : String
  deriving DecidableEq

/-- The observations `getNextStoreOpeningTime` makes of `new Date()`:
`getDay()` and `toTimeString().slice(0, 5)`. -/
structure NowInfo where
  dayOfWeek : Nat
  currentTime : String
  deriving DecidableEq

/-- The source's JavaScript-day to API-day conversion:
`currentDayOfWeek === 0 ? 7 : currentDayOfWeek`. -/
def apiDayOfWeek (jsDay : Nat) : Nat :=
  if jsDay == 0 then 7 else jsDay

/-- The `for (let i = 1; i <= 7; i++)` scan of
`NotificationService.getNextStoreOpeningTime`: each future date's weekday
is renumbered through `apiDayOfWeek` and looked up in the weekly table;
overrides are never consulted. -/
def nextOpeningScan (hours : List StoreHours) (nowDay : Nat) :
    List Nat → Option StoreOpeningTime
  | [] => none
  | i :: rest =>
    match hours.find? (fun h => h.dayOfWeek == apiDayOfWeek ((nowDay + i) % 7)) with
    | some h =>
      some { dayOfWeek := apiDayOfWeek ((nowDay + i) % 7)
           , openTime := h.openTime
           , closeTime := h.closeTime }
    | none => nextOpeningScan hours nowDay rest

/-- `NotificationService.getNextStoreOpeningTime`: check today's weekly
entry first (string comparison `openTime > currentTime`), then scan the
next 7 days.  Only `storeConfig.hours` is read; `storeConfig.overrides`
plays no part. -/
def getNextStoreOpeningTime (config : StoreConfig) (now : NowInfo) :
    Option StoreOpeningTime :=
  match config.hours.find? (fun h => h.dayOfWeek == apiDayOfWeek now.dayOfWeek) with
  | some todayHours =>
    if now.currentTime < todayHours.openTime then
      some { dayOfWeek := apiDayOfWeek now.dayOfWeek
           , openTime := todayHours.openTime
           , closeTime := todayHours.closeTime }
    else nextOpeningScan config.hours now.dayOfWeek [1, 2, 3, 4, 5, 6, 7]
  | none => nextOpeningScan config.hours now.dayOfWeek [1, 2, 3, 4, 5, 6, 7]

/-- `days_from_civil` (Gregorian): epoch-day number (1970-01-01 = 0) of a
civil year/month/day, used to model JavaScript `Date` field semantics. -/
def daysFromCivil (y m d : Int) : Int :=
  let y' := if m ≤ 2 then y - 1 else y
  let era := y'.fdiv 400
  let yoe := y' - era * 400
  let doy := (153 * (if m > 2 then m - 3 else m + 9) + 2).fdiv 5 + d - 1
  let doe := yoe * 365 + yoe.fdiv 4 - yoe.fdiv 100 + doy
  era * 146097 + doe - 719468

/-- `civil_from_days` (Gregorian): (year, month, day) of an epoch day. -/
def civilFromDays (z0 : Int) : Int × Int × Int :=
  let z := z0 + 719468
  let era := z.fdiv 146097
  let doe := z - era * 146097
  let yoe := (doe - doe.fdiv 1460 + doe.fdiv 36524 - doe.fdiv 146096).fdiv 365
  let y := yoe + era * 400
  let doy := doe - (365 * yoe + yoe.fdiv 4 - yoe.fdiv 100)
  let mp := (5 * doy + 2).fdiv 153
  let d := doy - (153 * mp + 2).fdiv 5 + 1
  let m := if mp < 10 then mp + 3 else mp - 9
  (if m ≤ 2 then y + 1 else y, m, d)

/-- A JavaScript `Date` for `calculateNotificationTime`: an absolute
point in (device-local) time as an epoch day plus minute of day. -/
structure JSDateTime where
  epochDay : Int
  minuteOfDay : Int
  deriving DecidableEq

/-- `getTime()` up to the minute: total minutes since the epoch. -/
def toMinutes (d : JSDateTime) : Int :=
  d.epochDay * 1440 + d.minuteOfDay

/-- `getDay()`: 1970-01-01 was a Thursday (4). -/
def jsGetDay (d : JSDateTime) : Int :=
  (d.epochDay + 4).fmod 7

/-- `getDate()`: civil day of month. -/
def jsGetDate (d : JSDateTime) : Int :=
  (civilFromDays d.epochDay).2.2

/-- `setHours(h, m, 0, 0)` with JavaScript normalization: out-of-range
hours (such as -1) roll the calendar date. -/
def jsSetHours (d : JSDateTime) (h m : Int) : JSDateTime :=
  let total := d.epochDay * 1440 + h * 60 + m
  { epochDay := total.fdiv 1440, minuteOfDay := total.fmod 1440 }

/-- `setDate(dom)` with JavaScript normalization: replaces the day of
month within `d`'s current civil month, rolling across month boundaries
when `dom` is out of range. -/
def jsSetDate (d : JSDateTime) (dom : Int) : JSDateTime :=
  let c := civilFromDays d.epochDay
  { epochDay := daysFromCivil c.1 c.2.1 1 + (dom - 1), minuteOfDay := d.minuteOfDay }

/-- `NotificationService.calculateNotificationTime`: sets the wall-clock
to one hour before the opening time on `now`'s date (JavaScript `setHours`
normalization rolling the date back for openings before 01:00), and, if
that instant is not in the future, jumps `setDate`-wise to `now`'s day of
month plus `(dayOfWeek - now.getDay() + 7) % 7` (or plus 7 when that is
zero).  The source's catch branch is unreachable for well-formed inputs. -/
def calculateNotificationTime (now : JSDateTime) (opening : StoreOpeningTime) :
    JSDateTime :=
  let hm := parseHM opening.openTime
  let t := jsSetHours now ((hm.1 : Int) - 1) (hm.2 : Int)
  if toMinutes t ≤ toMinutes now then
    let daysUntilNext := ((opening.dayOfWeek : Int) - jsGetDay now + 7).fmod 7
    if daysUntilNext = 0 then jsSetDate t (jsGetDate now + 7)
    else jsSetDate t (jsGetDate now + daysUntilNext)
  else t

/-! Concrete schedule instances used in the witnesses and
counterexamples.  2025-06-01 was a Sunday, so 2025-06-02 is a Monday and
2025-12-25 a Thursday. -/

/-- Weekly table with Monday 09:00-17:00 only, no overrides. -/
def cfgMon : StoreConfig :=
  { timezone := "America/New_York"
  , hours := [ { dayOfWeek := 1, openTime := "09:00", closeTime := "17:00" } ]
  , overrides := [] }

/-- Monday 2025-06-02 at midnight, as observed wall-clock fields. -/
def dMon : JSDate :=
  { dayOfWeek := 1, dateString := "2025-06-02", hours := 0, minutes := 0 }

/-- Weekly Monday 09:00-17:00 plus an open override for 2025-06-02 with
its own 08:00-12:00 window. -/
def cfgC2over : StoreConfig :=
  { timezone := "America/New_York"
  , hours := [ { dayOfWeek := 1, openTime := "09:00", closeTime := "17:00" } ]
  , overrides :=
    [ { date := "2025-06-02", isOpen := true
      , openTime := some "08:00", closeTime := some "12:00", reason := none } ] }

/-- No weekly hours at all, but an open override with a window for
2025-06-02. -/
def cfgC2noWeekly : StoreConfig :=
  { timezone := "America/New_York"
  , hours := []
  , overrides :=
    [ { date := "2025-06-02", isOpen := true
      , openTime := some "08:00", closeTime := some "12:00", reason := none } ] }

/-- Weekly Monday open only 09:00-09:20: a 20-minute window. -/
def cfgShortMon : StoreConfig :=
  { timezone := "America/New_York"
  , hours := [ { dayOfWeek := 1, openTime := "09:00", closeTime := "09:20" } ]
  , overrides := [] }

/-- The closed Christmas override of the spec's concrete scenario. -/
def ovXmas : StoreOverride :=
  { date := "2025-12-25", isOpen := false
  , openTime := none, closeTime := none, reason := none }

/-- Thursday weekly hours 09:00-17:00 with the closed Christmas
override. -/
def cfgXmas : StoreConfig :=
  { timezone := "America/New_York"
  , hours := [ { dayOfWeek := 4, openTime := "09:00", closeTime := "17:00" } ]
  , overrides := [ovXmas] }

/-- Thursday 2025-12-25 at noon. -/
def dXmas : JSDate :=
  { dayOfWeek := 4, dateString := "2025-12-25", hours := 12, minutes := 0 }

/-- Weekly Monday 09:00-17:00 with closed overrides on every date from
2025-06-01 (a Sunday) through 2025-06-08: the whole 7-day scan horizon of
a search starting on 2025-06-01 is overridden closed. -/
def cfgC5 : StoreConfig :=
  { timezone := "America/New_York"
  , hours := [ { dayOfWeek := 1, openTime := "09:00", closeTime := "17:00" } ]
  , overrides :=
    [ { date := "2025-06-01", isOpen := false, openTime := none, closeTime := none, reason := none }
    , { date := "2025-06-02", isOpen := false, openTime := none, closeTime := none, reason := none }
    , { date := "2025-06-03", isOpen := false, openTime := none, closeTime := none, reason := none }
    , { date := "2025-06-04", isOpen := false, openTime := none, closeTime := none, reason := none }
    , { date := "2025-06-05", isOpen := false, openTime := none, closeTime := none, reason := none }
    , { date := "2025-06-06", isOpen := false, openTime := none, closeTime := none, reason := none }
    , { date := "2025-06-07", isOpen := false, openTime := none, closeTime := none, reason := none }
    , { date := "2025-06-08", isOpen := false, openTime := none, closeTime := none, reason := none } ] }

/-- Sunday 2025-06-01 noon as `getNextStoreOpeningTime` observes it. -/
def nowC5 : NowInfo := { dayOfWeek := 0, currentTime := "12:00" }

/-- An API override marked open with no time window at all. -/
def oBad : APIStoreOverride :=
  { id := "1", day := 25, month := 12, is_open := true
  , start_time := none, end_time := none }

/-- A successful fetch whose only override is `oBad`. -/
def fBadOverride : FetchOutcome :=
  { storeTimes := [], storeOverrides := [oBad], error := none }

/-- A failed fetch (the timeout error string of `APIService`). -/
def fTimeout : FetchOutcome :=
  { storeTimes := [], storeOverrides := [], error := some "Request timeout" }

/-- Monday 2025-06-09, 01:00 device-local time. -/
def nowC6 : JSDateTime := { epochDay := daysFromCivil 2025 6 9, minuteOfDay := 60 }

/-- An opening on weekday 2 (Tuesday) at 00:30. -/
def openingC6 : StoreOpeningTime :=
  { dayOfWeek := 2, openTime := "00:30", closeTime := "18:00" }

/-- C1: for every store configuration and date whose date string has an
override entry, `isStoreOpen` returns the override's `isOpen` value, the
weekly table playing no part. -/
theorem override_precedence_isStoreOpen (config : StoreConfig) (date : JSDate)
    (o : StoreOverride)
    (h : config.overrides.find? (fun x => x.date == date.dateString) = some o) :
    isStoreOpen config date = o.isOpen := by
  unfold isStoreOpen
  rw [h]

/-- C1 witness: the spec's concrete scenario.  2025-12-25 (a Thursday,
weekday 4) carries a closed override while the weekly table has Thursday
09:00-17:00; the date resolves closed. -/
theorem override_precedence_isStoreOpen_witness :
    cfgXmas.overrides.find? (fun x => x.date == dXmas.dateString) = some ovXmas
    ∧ isStoreOpen cfgXmas dXmas = ovXmas.isOpen
    ∧ ovXmas.isOpen = false
    ∧ cfgXmas.hours.find? (fun h => h.dayOfWeek == dXmas.dayOfWeek)
        = some { dayOfWeek := 4, openTime := "09:00", closeTime := "17:00" } :=
  ⟨by decide
  , override_precedence_isStoreOpen cfgXmas dXmas ovXmas (by decide)
  , rfl
  , by decide⟩

/-- C2 (code bug evidence): on 2025-06-02 (Monday) with an open override
window 08:00-12:00 and a weekly Monday window 09:00-17:00, the generated
slots start at 09:00 and there are 32 of them — the weekly window, not
the override's.  And with the same open override but no weekly Monday
entry, no slots are produced at all, although the date resolves open. -/
theorem generateTimeSlots_ignores_override_window :
    ((generateTimeSlots cfgC2over dMon).map TimeSlot.time).head? = some "09:00"
    ∧ (generateTimeSlots cfgC2over dMon).length = 32
    ∧ isStoreOpen cfgC2noWeekly dMon = true
    ∧ generateTimeSlots cfgC2noWeekly dMon = [] := by
  decide

/-- C3 (counterexample): with weekly Monday hours 09:00-17:00 and no
override, `getStoreStatus` reports open at 03:00 wall-clock on Monday
2025-06-02, an instant outside the day's [09:00, 17:00) window. -/
theorem getStoreStatus_ignores_wallclock_cex :
    (getStoreStatus cfgMon
      { dayOfWeek := 1, dateString := "2025-06-02", hours := 3, minutes := 0 }).isOpen = true
    ∧ cfgMon.hours = [ { dayOfWeek := 1, openTime := "09:00", closeTime := "17:00" } ]
    ∧ 3 * 60 + 0 < 9 * 60 := by
  decide

/-- C3 (amended): `getStoreStatus` decides at date granularity only — its
result equals `isStoreOpen` of the same weekday and date string with the
wall-clock fields zeroed, so the hour and minute of the instant never
influence it. -/
theorem getStoreStatus_date_level (config : StoreConfig) (now : JSDate) :
    (getStoreStatus config now).isOpen
      = isStoreOpen config
          { dayOfWeek := now.dayOfWeek, dateString := now.dateString
          , hours := 0, minutes := 0 } := rfl

/-- C8 (counterexample): a fetched open override with no time window is
converted and installed in the configuration without any failure —
`convertStoreOverride` and `initializeStoreConfig` are total and no
InvalidOverride error exists anywhere in the source. -/
theorem convertStoreOverride_no_validation_cex :
    (initializeStoreConfig fBadOverride).overrides =
      [ { date := "2025-12-25", isOpen := true, openTime := none
        , closeTime := none, reason := some ("Override for 12/25") } ] := by
  decide

/-- C8 (amended): configuration processing never fails: every fetched
override — validated or not — is converted field-for-field (the open flag
and the possibly-missing window pass through unchanged) and installed in
the resulting configuration. -/
theorem convertStoreOverride_accepts_all (f : FetchOutcome) (o : APIStoreOverride)
    (he : f.error = none) (ho : o ∈ f.storeOverrides) :
    convertStoreOverride o ∈ (initializeStoreConfig f).overrides
    ∧ (convertStoreOverride o).isOpen = o.is_open
    ∧ (convertStoreOverride o).openTime = o.start_time
    ∧ (convertStoreOverride o).closeTime = o.end_time := by
  refine ⟨?_, rfl, rfl, rfl⟩
  unfold initializeStoreConfig
  rw [he]
  exact List.mem_map_of_mem convertStoreOverride ho

/-- C8 witness: the windowless open override of `fBadOverride` is
silently accepted: it lands in the configuration with `isOpen = true` and
no `openTime`. -/
theorem convertStoreOverride_accepts_all_witness :
    fBadOverride.error = none
    ∧ oBad ∈ fBadOverride.storeOverrides
    ∧ convertStoreOverride oBad ∈ (initializeStoreConfig fBadOverride).overrides
    ∧ (convertStoreOverride oBad).isOpen = true
    ∧ (convertStoreOverride oBad).openTime = none :=
  ⟨rfl
  , by decide
  , (convertStoreOverride_accepts_all fBadOverride oBad rfl (by decide)).1
  , rfl
  , rfl⟩

/-- C9: whenever the fetch outcome carries an error, the configuration
becomes exactly the hardcoded default — Sun 10:00-18:00, Mon-Fri
09:00-17:00, Sat 10:00-16:00, timezone America/New_York, no overrides —
and, the function being total, no failure reaches the caller. -/
theorem initializeStoreConfig_fallback (f : FetchOutcome) (e : String)
    (he : f.error = some e) :
    initializeStoreConfig f =
      { timezone := "America/New_York"
      , hours :=
        [ { dayOfWeek := 0, openTime := "10:00", closeTime := "18:00" }
        , { dayOfWeek := 1, openTime := "09:00", closeTime := "17:00" }
        , { dayOfWeek := 2, openTime := "09:00", closeTime := "17:00" }
        , { dayOfWeek := 3, openTime := "09:00", closeTime := "17:00" }
        , { dayOfWeek := 4, openTime := "09:00", closeTime := "17:00" }
        , { dayOfWeek := 5, openTime := "09:00", closeTime := "17:00" }
        , { dayOfWeek := 6, openTime := "10:00", closeTime := "16:00" } ]
      , overrides := [] } := by
  unfold initializeStoreConfig
  rw [he]
  rfl

/-- C9 witness: a timed-out fetch yields the default configuration. -/
theorem initializeStoreConfig_fallback_witness :
    fTimeout.error = some "Request timeout"
    ∧ initializeStoreConfig fTimeout =
      { timezone := "America/New_York"
      , hours :=
        [ { dayOfWeek := 0, openTime := "10:00", closeTime := "18:00" }
        , { dayOfWeek := 1, openTime := "09:00", closeTime := "17:00" }
        , { dayOfWeek := 2, openTime := "09:00", closeTime := "17:00" }
        , { dayOfWeek := 3, openTime := "09:00", closeTime := "17:00" }
        , { dayOfWeek := 4, openTime := "09:00", closeTime := "17:00" }
        , { dayOfWeek := 5, openTime := "09:00", closeTime := "17:00" }
        , { dayOfWeek := 6, openTime := "10:00", closeTime := "16:00" } ]
      , overrides := [] } :=
  ⟨rfl, initializeStoreConfig_fallback fTimeout "Request timeout" rfl⟩

/-- C10: `getStoreStatus` never populates its optional `nextOpen` field:
for every configuration and instant the field is `undefined` (`none`). -/
theorem getStoreStatus_nextOpen_none (config : StoreConfig) (now : JSDate) :
    (getStoreStatus config now).nextOpen = none := rfl

/-- The slot loop emits one slot per iteration, so its length is the
round-up of the window length over 15, provided the fuel covers the
window. -/
theorem slotTimesAux_length (fuel : Nat) :
    ∀ a b : Nat, b - a ≤ fuel →
      (slotTimesAux fuel a b).length = (b - a + 14) / 15 := by
  induction fuel with
  | zero =>
    intro a b h
    rw [slotTimesAux, List.length_nil]
    omega
  | succ n ih =>
    intro a b h
    rw [slotTimesAux]
    by_cases hab : a < b
    · rw [if_pos hab, List.length_cons, ih (a + 15) b (by omega)]
      omega
    · rw [if_neg hab, List.length_nil]
      omega

/-- `slotTimes` produces exactly `ceil((close - open) / 15)` slots,
written as `(close - open + 14) / 15`. -/
theorem slotTimes_length (a b : Nat) :
    (slotTimes a b).length = (b - a + 14) / 15 :=
  slotTimesAux_length (b - a) a b (Nat.le_refl _)

/-- Every emitted slot time lies in `[a, b)` and on the 15-minute grid
anchored at `a`. -/
theorem slotTimesAux_mem (fuel : Nat) :
    ∀ a b t : Nat, t ∈ slotTimesAux fuel a b →
      a ≤ t ∧ t < b ∧ (t - a) % 15 = 0 := by
  induction fuel with
  | zero =>
    intro a b t ht
    rw [slotTimesAux] at ht
    cases ht
  | succ n ih =>
    intro a b t ht
    rw [slotTimesAux] at ht
    by_cases hab : a < b
    · rw [if_pos hab] at ht
      rcases List.mem_cons.mp ht with rfl | ht'
      · exact ⟨Nat.le_refl t, hab, by simp⟩
      · have := ih (a + 15) b t ht'
        omega
    · rw [if_neg hab] at ht
      cases ht

/-- Membership form for `slotTimes`. -/
theorem slotTimes_mem {a b t : Nat} (ht : t ∈ slotTimes a b) :
    a ≤ t ∧ t < b ∧ (t - a) % 15 = 0 :=
  slotTimesAux_mem (b - a) a b t ht

/-- A nonempty window's first slot is the window's opening minute. -/
theorem slotTimes_head (a b : Nat) (h : a < b) :
    (slotTimes a b).head? = some a := by
  unfold slotTimes
  obtain ⟨k, hk⟩ : ∃ k, b - a = k + 1 := ⟨b - a - 1, by omega⟩
  rw [hk, slotTimesAux, if_pos h]
  rfl

/-- C4 (amended): on a date that resolves open and has a weekly entry for
its weekday with window `[o, c)` in minutes, `generateTimeSlots` emits
`ceil((c - o) / 15)` slots — that is `(c - o + 14) / 15`, which equals
`floor((c - o) / 15)` exactly when 15 divides the window — every slot
lying on the 15-minute grid inside `[o, c)` (so never at or past the
close), and the first slot starting exactly at the open minute. -/
theorem generateTimeSlots_count (config : StoreConfig) (date : JSDate)
    (sh : StoreHours) (o c : Nat)
    (hopen : isStoreOpen config date = true)
    (hfind : config.hours.find? (fun h => h.dayOfWeek == date.dayOfWeek) = some sh)
    (ho : (parseHM sh.openTime).1 * 60 + (parseHM sh.openTime).2 = o)
    (hc : (parseHM sh.closeTime).1 * 60 + (parseHM sh.closeTime).2 = c) :
    (generateTimeSlots config date).length = (c - o + 14) / 15
    ∧ (∀ s ∈ generateTimeSlots config date, ∃ t : Nat,
        o ≤ t ∧ t < c ∧ (t - o) % 15 = 0
        ∧ s.time = minutesToHHMM t
        ∧ s.id = date.dateString ++ "-" ++ minutesToHHMM t)
    ∧ (o < c → (generateTimeSlots config date).head?.map TimeSlot.time
        = some (minutesToHHMM o)) := by
  have hg : generateTimeSlots config date
      = (slotTimes o c).map (fun t =>
          { id := date.dateString ++ "-" ++ minutesToHHMM t
          , time := minutesToHHMM t
          , displayTime := displayTime12 t
          , isAvailable := true
          , isSelected := false }) := by
    simp [generateTimeSlots, hopen, hfind, ho, hc]
  refine ⟨?_, ?_, ?_⟩
  · rw [hg, List.length_map, slotTimes_length]
  · intro s hs
    rw [hg] at hs
    rcases List.mem_map.mp hs with ⟨t, htmem, rfl⟩
    have hp := slotTimes_mem htmem
    exact ⟨t, hp.1, hp.2.1, hp.2.2, rfl, rfl⟩
  · intro hoc
    rw [hg, List.head?_map, slotTimes_head o c hoc]
    rfl

/-- C4 witness: the spec's concrete scenario — weekly Monday 09:00-17:00,
no overrides — yields 32 slots for Monday 2025-06-02, the first id ending
in 09:00 and the last in 16:45. -/
theorem generateTimeSlots_count_witness :
    isStoreOpen cfgMon dMon = true
    ∧ cfgMon.hours.find? (fun h => h.dayOfWeek == dMon.dayOfWeek)
        = some { dayOfWeek := 1, openTime := "09:00", closeTime := "17:00" }
    ∧ (generateTimeSlots cfgMon dMon).length = (1020 - 540 + 14) / 15
    ∧ (generateTimeSlots cfgMon dMon).length = 32
    ∧ ((generateTimeSlots cfgMon dMon).map TimeSlot.id).head?
        = some "2025-06-02-09:00"
    ∧ ((generateTimeSlots cfgMon dMon).map TimeSlot.id).getLast?
        = some "2025-06-02-16:45" :=
  ⟨by decide
  , by decide
  , (generateTimeSlots_count cfgMon dMon
      { dayOfWeek := 1, openTime := "09:00", closeTime := "17:00" } 540 1020
      (by decide) (by decide) (by decide) (by decide)).1
  , by decide
  , by decide
  , by decide⟩

/-- C4 (counterexample): a 20-minute window (Monday 09:00-09:20) yields 2
slots — 09:00 and 09:15 — while `floor(20 / 15) = 1`; the slot count is
the ceiling, not the floor, of `N / 15`. -/
theorem generateTimeSlots_count_not_floor_cex :
    (generateTimeSlots cfgShortMon dMon).length = 2
    ∧ (560 - 540) / 15 = 1
    ∧ (generateTimeSlots cfgShortMon dMon).length ≠ (560 - 540) / 15
    ∧ (generateTimeSlots cfgShortMon dMon).map TimeSlot.time = ["09:00", "09:15"] := by
  decide

/-- C5 (counterexample): every date of the 7-day horizon starting Sunday
2025-06-01 is overridden closed (each resolves closed through
`isStoreOpen`), yet `getNextStoreOpeningTime` still returns the weekly
Monday opening, because it never consults overrides. -/
theorem getNextStoreOpeningTime_ignores_overrides_cex :
    isStoreOpen cfgC5 { dayOfWeek := 0, dateString := "2025-06-01", hours := 12, minutes := 0 } = false
    ∧ isStoreOpen cfgC5 { dayOfWeek := 1, dateString := "2025-06-02", hours := 12, minutes := 0 } = false
    ∧ isStoreOpen cfgC5 { dayOfWeek := 2, dateString := "2025-06-03", hours := 12, minutes := 0 } = false
    ∧ isStoreOpen cfgC5 { dayOfWeek := 3, dateString := "2025-06-04", hours := 12, minutes := 0 } = false
    ∧ isStoreOpen cfgC5 { dayOfWeek := 4, dateString := "2025-06-05", hours := 12, minutes := 0 } = false
    ∧ isStoreOpen cfgC5 { dayOfWeek := 5, dateString := "2025-06-06", hours := 12, minutes := 0 } = false
    ∧ isStoreOpen cfgC5 { dayOfWeek := 6, dateString := "2025-06-07", hours := 12, minutes := 0 } = false
    ∧ isStoreOpen cfgC5 { dayOfWeek := 0, dateString := "2025-06-08", hours := 12, minutes := 0 } = false
    ∧ getNextStoreOpeningTime cfgC5 nowC5
        = some { dayOfWeek := 1, openTime := "09:00", closeTime := "17:00" } := by
  decide

/-- The scan over any list of day offsets returns `none` exactly when
the weekly table matches none of the renumbered weekdays it visits. -/
theorem nextOpeningScan_none_iff (hours : List StoreHours) (nowDay : Nat) :
    ∀ l : List Nat,
      (nextOpeningScan hours nowDay l = none ↔
        ∀ i ∈ l, hours.find? (fun x => x.dayOfWeek == apiDayOfWeek ((nowDay + i) % 7)) = none)
  | [] => by simp [nextOpeningScan]
  | i :: rest => by
    rw [nextOpeningScan]
    cases hf : hours.find? (fun x => x.dayOfWeek == apiDayOfWeek ((nowDay + i) % 7)) with
    | some h =>
      constructor
      · intro hcontra
        exact Option.noConfusion hcontra
      · intro hall
        have hi := hall i (List.mem_cons_self i rest)
        rw [hf] at hi
        exact Option.noConfusion hi
    | none =>
      have hrec := nextOpeningScan_none_iff hours nowDay rest
      constructor
      · intro hs i' hmem
        rcases List.mem_cons.mp hmem with rfl | hmem'
        · exact hf
        · exact (hrec.mp hs) i' hmem'
      · intro hall
        exact hrec.mpr (fun i' hmem' => hall i' (List.mem_cons_of_mem i hmem'))

/-- C5 (amended): `getNextStoreOpeningTime` reads only the weekly table.
For every configuration its result is identical under any two override
lists whatsoever — override-closed dates can never force `none` — and it
returns `none` exactly when no entry of the table matches any of the
seven API-renumbered weekdays scanned ahead of `now` (today's own
pre-opening check is subsumed by the `i = 7` scan step, which revisits
today's weekday). -/
theorem getNextStoreOpeningTime_weekly_only (tz : String)
    (hrs : List StoreHours) (ov ov' : List StoreOverride) (now : NowInfo)
    (hd : now.dayOfWeek < 7) :
    getNextStoreOpeningTime { timezone := tz, hours := hrs, overrides := ov } now
      = getNextStoreOpeningTime { timezone := tz, hours := hrs, overrides := ov' } now
    ∧ (getNextStoreOpeningTime { timezone := tz, hours := hrs, overrides := ov } now = none
        ↔ ∀ i ∈ [1, 2, 3, 4, 5, 6, 7],
            hrs.find? (fun x => x.dayOfWeek == apiDayOfWeek ((now.dayOfWeek + i) % 7)) = none) := by
  refine ⟨rfl, ?_⟩
  cases hf : hrs.find? (fun x => x.dayOfWeek == apiDayOfWeek now.dayOfWeek) with
  | none =>
    simp only [getNextStoreOpeningTime, hf]
    exact nextOpeningScan_none_iff hrs now.dayOfWeek [1, 2, 3, 4, 5, 6, 7]
  | some todayHours =>
    simp only [getNextStoreOpeningTime, hf]
    by_cases hc : now.currentTime < todayHours.openTime
    · rw [if_pos hc]
      constructor
      · intro hcontra
        exact Option.noConfusion hcontra
      · intro hall
        have h7 := hall 7 (by simp)
        have hmod : (now.dayOfWeek + 7) % 7 = now.dayOfWeek := by omega
        rw [hmod, hf] at h7
        exact Option.noConfusion h7
    · rw [if_neg hc]
      exact nextOpeningScan_none_iff hrs now.dayOfWeek [1, 2, 3, 4, 5, 6, 7]

/-- C5 witness: instantiated at the all-overridden-closed configuration
`cfgC5` scanning from Sunday 2025-06-01 — the result equals the result
with the overrides deleted, the `none` characterization holds, and the
result is in fact the weekly Monday opening, `some`, despite every date
of the horizon being overridden closed. -/
theorem getNextStoreOpeningTime_weekly_only_witness :
    nowC5.dayOfWeek < 7
    ∧ getNextStoreOpeningTime cfgC5 nowC5
        = getNextStoreOpeningTime
            { timezone := "America/New_York"
            , hours := [ { dayOfWeek := 1, openTime := "09:00", closeTime := "17:00" } ]
            , overrides := [] } nowC5
    ∧ (getNextStoreOpeningTime cfgC5 nowC5 = none
        ↔ ∀ i ∈ [1, 2, 3, 4, 5, 6, 7],
            cfgC5.hours.find?
              (fun x => x.dayOfWeek == apiDayOfWeek ((nowC5.dayOfWeek + i) % 7)) = none)
    ∧ getNextStoreOpeningTime cfgC5 nowC5
        = some { dayOfWeek := 1, openTime := "09:00", closeTime := "17:00" } :=
  ⟨by decide
  , (getNextStoreOpeningTime_weekly_only "America/New_York"
      [ { dayOfWeek := 1, openTime := "09:00", closeTime := "17:00" } ]
      cfgC5.overrides [] nowC5 (by decide)).1
  , (getNextStoreOpeningTime_weekly_only "America/New_York"
      [ { dayOfWeek := 1, openTime := "09:00", closeTime := "17:00" } ]
      cfgC5.overrides [] nowC5 (by decide)).2
  , by decide⟩

/-- C6 (code bug evidence): with `now` Monday 2025-06-09 01:00 and the
next opening on Tuesday at 00:30 (next occurrence 2025-06-10 00:30),
`calculateNotificationTime` returns 2025-06-10 23:30 — 23 hours after the
opening — instead of the claimed 60-minutes-before instant 2025-06-09
23:30 (the cross-midnight reschedule keeps the rolled-back 23:30
wall-clock but jumps the date to the opening day itself).  The
same-day non-midnight case does behave as claimed: an opening at 09:00
with `now` 07:00 yields 08:00 the same day. -/
theorem calculateNotificationTime_cross_midnight_bug :
    jsGetDay nowC6 = 1
    ∧ jsGetDay { epochDay := daysFromCivil 2025 6 10, minuteOfDay := 30 } = 2
    ∧ toMinutes (calculateNotificationTime nowC6 openingC6)
        = daysFromCivil 2025 6 10 * 1440 + 1410
    ∧ daysFromCivil 2025 6 10 * 1440 + 1410
        ≠ daysFromCivil 2025 6 10 * 1440 + 30 - 60
    ∧ daysFromCivil 2025 6 10 * 1440 + 30 - 60
        = daysFromCivil 2025 6 9 * 1440 + 1410
    ∧ toMinutes (calculateNotificationTime
          { epochDay := daysFromCivil 2025 6 9, minuteOfDay := 420 }
          { dayOfWeek := 1, openTime := "09:00", closeTime := "17:00" })
        = daysFromCivil 2025 6 9 * 1440 + 480 := by
  decide

/-- C7 (counterexample): at hour 5 the greeting is "Good Morning X!" —
without the comma the claim specifies — and at hour 10 it is
"Late Morning Vibes! X!", with a trailing exclamation mark the claim
omits. -/
theorem getGreetingMessage_strings_cex :
    getGreetingMessage 5 "X" = "Good Morning X!"
    ∧ getGreetingMessage 5 "X" ≠ "Good Morning, X!"
    ∧ getGreetingMessage 10 "X" = "Late Morning Vibes! X!"
    ∧ getGreetingMessage 10 "X" ≠ "Late Morning Vibes! X" := by
  decide

/-- C7 (amended): for an instant `secs` seconds after midnight in the
active timezone, the greeting is selected by the claimed half-open
hour-of-day bands, but the produced strings are
"Good Morning {city}!", "Late Morning Vibes! {city}!",
"Good Afternoon {city}!", "Good Evening {city}!" and
"Night Owl in {city}!" — the city always glued with a space and a final
exclamation mark, never with a comma. -/
theorem getGreetingMessage_banded (secs : Nat) (city : String)
    (hs : secs < 86400) :
    getGreetingMessage (secs / 3600) city =
      (if 18000 ≤ secs ∧ secs < 36000 then "Good Morning " ++ city ++ "!"
       else if 36000 ≤ secs ∧ secs < 43200 then "Late Morning Vibes! " ++ city ++ "!"
       else if 43200 ≤ secs ∧ secs < 61200 then "Good Afternoon " ++ city ++ "!"
       else if 61200 ≤ secs ∧ secs < 75600 then "Good Evening " ++ city ++ "!"
       else "Night Owl in " ++ city ++ "!") := by
  simp only [getGreetingMessage]
  split_ifs <;> first
    | rfl
    | (exfalso; omega)

/-- C7 witness: the claim's boundary instants — 05:00:00 is morning,
04:59:59 and 21:00:00 are night-owl, 20:59:59 is evening. -/
theorem getGreetingMessage_banded_witness :
    getGreetingMessage (18000 / 3600) "X" = "Good Morning X!"
    ∧ getGreetingMessage (17999 / 3600) "X" = "Night Owl in X!"
    ∧ getGreetingMessage (75600 / 3600) "X" = "Night Owl in X!"
    ∧ getGreetingMessage (75599 / 3600) "X" = "Good Evening X!" :=
  ⟨(getGreetingMessage_banded 18000 "X" (by decide)).trans (by decide)
  , (getGreetingMessage_banded 17999 "X" (by decide)).trans (by decide)
  , (getGreetingMessage_banded 75600 "X" (by decide)).trans (by decide)
  , (getGreetingMessage_banded 75599 "X" (by decide)).trans (by decide)⟩
